import Mathlib

/-!
Verification of the NYC parking-violations demo dashboard
(`app/streamlit_app.py`): the JSONLines result-stream decoder
`_parse_jsonlines_output`, the query runner `execute_query`, and the SQL
filter templating in `execute_benchmark_query` / `execute_custom_query`.

Strings are modelled as `List Char`.  Python `json.loads` values are
modelled by `PyVal`; Python floats are modelled as exact rationals.
Exceptions that can escape the decoder (AttributeError, TypeError,
KeyError and pandas' ValueError on a column-count mismatch) are modelled
with `Except PyErr`.
-/

namespace Demo

/-- Characters kept by the cleaning step
`re.sub(r'[^\x20-\x7E\n\r\t]', '', output)`: printable ASCII plus
newline, carriage return and tab. -/
def keptChar (c : Char) : Bool :=
  (32 ≤ c.toNat && c.toNat ≤ 126) || c = '\n' || c = '\r' || c = '\t'

/-- `re.sub(r'[^\x20-\x7E\n\r\t]', '', output)`. -/
def cleanOut (s : List Char) : List Char :=
  s.filter keptChar

/-- Whitespace for Python `str.strip()`; on the post-cleaning alphabet the
only whitespace characters are space, tab, newline, carriage return. -/
def isWsB (c : Char) : Bool :=
  c = ' ' || c = '\t' || c = '\n' || c = '\r'

/-- Python `str.strip()`, left part. -/
def trimL (s : List Char) : List Char :=
  s.dropWhile isWsB

/-- Python `str.strip()`, right part. -/
def trimR (s : List Char) : List Char :=
  (s.reverse.dropWhile isWsB).reverse

/-- Python `str.strip()`. -/
def pyStrip (s : List Char) : List Char :=
  trimR (trimL s)

/-- Whitespace stripped by Python `str.strip()` on arbitrary
(uncleaned) text: the characters with the Unicode White_Space property
- ASCII whitespace including vertical tab and form feed, the
file/group/record/unit separators 0x1C-0x1F, NEL, NBSP, and the Unicode
space separators. -/
def isPyWs (c : Char) : Bool :=
  (9 ≤ c.toNat && c.toNat ≤ 13) || c = ' ' || (28 ≤ c.toNat && c.toNat ≤ 31) ||
    c.toNat = 133 || c.toNat = 160 || c.toNat = 5760 ||
    (8192 ≤ c.toNat && c.toNat ≤ 8202) || c.toNat = 8232 || c.toNat = 8233 ||
    c.toNat = 8239 || c.toNat = 8287 || c.toNat = 12288

/-- Python `str.strip()` applied to raw process output, where the full
whitespace set matters (inside the decoder the text has already been
cleaned down to printable ASCII plus tab/newline/carriage return, for
which `pyStrip` is exact). -/
def pyStripFull (s : List Char) : List Char :=
  ((s.dropWhile isPyWs).reverse.dropWhile isPyWs).reverse

/-- Python `str.split('\n')`. -/
def splitNl : List Char → List (List Char)
  | [] => [[]]
  | c :: t =>
    if c = '\n' then [] :: splitNl t
    else
      match splitNl t with
      | [] => [[c]]
      | l :: ls => (c :: l) :: ls

/-- Python `s.startswith(p)` (`p` the first argument). -/
def strHasPre : List Char → List Char → Bool
  | [], _ => true
  | _ :: _, [] => false
  | p :: ps, c :: cs => p = c && strHasPre ps cs

/-- Python `needle in hay` for strings. -/
def strHasSub (needle : List Char) : List Char → Bool
  | [] => needle.isEmpty
  | c :: t => strHasPre needle (c :: t) || strHasSub needle t

/-- `line.startswith('{')`. -/
def startsBrace : List Char → Bool
  | c :: _ => c = '{'
  | [] => false

/-- `line.endswith('}')`. -/
def endsBrace (s : List Char) : Bool :=
  match s.getLast? with
  | some c => c = '}'
  | none => false

/-- Python values produced by `json.loads`; finite floats are modelled
as exact rationals, and the non-finite floats produced by the constants
`NaN`, `Infinity` and `-Infinity` (accepted by `json.loads` by default)
by `pyNaN` and `pyInf` (`true` = negative). -/
inductive PyVal where
  | pyNone : PyVal
  | pyBool : Bool → PyVal
  | pyInt : Int → PyVal
  | pyFloat : ℚ → PyVal
  | pyNaN : PyVal
  | pyInf : Bool → PyVal
  | pyStr : List Char → PyVal
  | pyList : List PyVal → PyVal
  | pyDict : List (List Char × PyVal) → PyVal
  deriving Repr

/-- Exceptions that the decoder body can raise past its
`except json.JSONDecodeError` handler. -/
inductive PyErr where
  | attributeError
  | typeError
  | keyError
  | valueError
  deriving Repr, DecidableEq

/-- Whitespace accepted by `json.loads` between tokens. -/
def isJsonWs (c : Char) : Bool :=
  c = ' ' || c = '\t' || c = '\n' || c = '\r'

def skipWs (s : List Char) : List Char :=
  s.dropWhile isJsonWs

/-- Single-character JSON string escapes. -/
def escChar (c : Char) : Option Char :=
  if c = '"' then some '"'
  else if c = '\\' then some '\\'
  else if c = '/' then some '/'
  else if c = 'b' then some (Char.ofNat 8)
  else if c = 'f' then some (Char.ofNat 12)
  else if c = 'n' then some '\n'
  else if c = 'r' then some '\r'
  else if c = 't' then some '\t'
  else none

def hexVal (c : Char) : Option Nat :=
  if '0' ≤ c ∧ c ≤ '9' then some (c.toNat - 48)
  else if 'a' ≤ c ∧ c ≤ 'f' then some (c.toNat - 87)
  else if 'A' ≤ c ∧ c ≤ 'F' then some (c.toNat - 55)
  else none

/-- Body of a JSON string after the opening quote; returns the decoded
characters and the remaining input.  Raw control characters are
rejected, as in `json.loads` strict mode. -/
def parseStringBody : List Char → Option (List Char × List Char)
  | [] => none
  | c :: rest =>
    if c = '"' then some ([], rest)
    else if c = '\\' then
      match rest with
      | [] => none
      | e :: rest2 =>
        if e = 'u' then
          match rest2 with
          | h1 :: h2 :: h3 :: h4 :: rest3 =>
            match hexVal h1, hexVal h2, hexVal h3, hexVal h4 with
            | some a, some b, some c3, some d =>
              match parseStringBody rest3 with
              | some (tail, rem) =>
                some (Char.ofNat (((a * 16 + b) * 16 + c3) * 16 + d) :: tail, rem)
              | none => none
            | _, _, _, _ => none
          | _ => none
        else
          match escChar e with
          | some ch =>
            match parseStringBody rest2 with
            | some (tail, rem) => some (ch :: tail, rem)
            | none => none
          | none => none
    else if c.toNat < 32 then none
    else
      match parseStringBody rest with
      | some (tail, rem) => some (c :: tail, rem)
      | none => none

def digitsToNat (ds : List Char) : Nat :=
  ds.foldl (fun a c => a * 10 + (c.toNat - 48)) 0

/-- JSON number: optional sign, integer part without leading zeros,
optional fraction and exponent.  Plain integers become Python ints,
anything with a fraction or exponent becomes a float. -/
def parseNumber (cs : List Char) : Option (PyVal × List Char) :=
  let p :=
    match cs with
    | '-' :: t => (true, t)
    | _ => (false, cs)
  let neg := p.1
  let cs1 := p.2
  let ds := cs1.takeWhile Char.isDigit
  let cs2 := cs1.dropWhile Char.isDigit
  if ds.isEmpty then none
  else if ds.length > 1 && ds.headD '0' = '0' then none
  else
    let ipart : Nat := digitsToNat ds
    let fr :=
      match cs2 with
      | '.' :: t => (t.takeWhile Char.isDigit, t.dropWhile Char.isDigit, true)
      | _ => ([], cs2, false)
    let fds := fr.1
    let cs3 := fr.2.1
    let hasFrac := fr.2.2
    if hasFrac && fds.isEmpty then none
    else
      let ex :=
        match cs3 with
        | 'e' :: t | 'E' :: t =>
          match t with
          | '-' :: t2 => (t2.takeWhile Char.isDigit, t2.dropWhile Char.isDigit, true, true)
          | '+' :: t2 => (t2.takeWhile Char.isDigit, t2.dropWhile Char.isDigit, true, false)
          | _ => (t.takeWhile Char.isDigit, t.dropWhile Char.isDigit, true, false)
        | _ => ([], cs3, false, false)
      let eds := ex.1
      let cs4 := ex.2.1
      let hasExp := ex.2.2.1
      let eneg := ex.2.2.2
      if hasExp && eds.isEmpty then none
      else if !hasFrac && !hasExp then
        some (PyVal.pyInt (if neg then -(ipart : Int) else (ipart : Int)), cs2)
      else
        let mant : ℚ := (ipart : ℚ) + (digitsToNat fds : ℚ) / (10 : ℚ) ^ fds.length
        let scale : ℚ :=
          if eneg then 1 / (10 : ℚ) ^ digitsToNat eds else (10 : ℚ) ^ digitsToNat eds
        let v := mant * scale
        some (PyVal.pyFloat (if neg then -v else v), cs4)

/-- Comma-separated JSON array elements up to the closing `]`;
`pv` parses one value (leading whitespace already skipped). -/
def parseElemsAux (pv : List Char → Option (PyVal × List Char)) :
    Nat → List Char → Option (List PyVal × List Char)
  | 0, _ => none
  | n + 1, cs =>
    match pv cs with
    | some (v, cs1) =>
      match skipWs cs1 with
      | ',' :: cs2 =>
        match parseElemsAux pv n (skipWs cs2) with
        | some (vs, rem) => some (v :: vs, rem)
        | none => none
      | ']' :: cs2 => some ([v], cs2)
      | _ => none
    | none => none

/-- Comma-separated JSON object members up to the closing brace. -/
def parseMembersAux (pv : List Char → Option (PyVal × List Char)) :
    Nat → List Char → Option (List (List Char × PyVal) × List Char)
  | 0, _ => none
  | n + 1, cs =>
    match cs with
    | '"' :: cs0 =>
      match parseStringBody cs0 with
      | some (k, cs1) =>
        match skipWs cs1 with
        | ':' :: cs2 =>
          match pv (skipWs cs2) with
          | some (v, cs3) =>
            match skipWs cs3 with
            | ',' :: cs4 =>
              match parseMembersAux pv n (skipWs cs4) with
              | some (kvs, rem) => some ((k, v) :: kvs, rem)
              | none => none
            | '}' :: cs4 => some ([(k, v)], cs4)
            | _ => none
          | none => none
        | _ => none
      | none => none
    | _ => none

/-- One JSON value (leading whitespace already skipped); the fuel bounds
the nesting depth. -/
def parseValue : Nat → List Char → Option (PyVal × List Char)
  | 0, _ => none
  | n + 1, cs =>
    match cs with
    | [] => none
    | c :: rest =>
      if c = '{' then
        match skipWs rest with
        | '}' :: rem => some (PyVal.pyDict [], rem)
        | cs1 =>
          match parseMembersAux (parseValue n) (cs1.length + 1) cs1 with
          | some (kvs, rem) => some (PyVal.pyDict kvs, rem)
          | none => none
      else if c = '[' then
        match skipWs rest with
        | ']' :: rem => some (PyVal.pyList [], rem)
        | cs1 =>
          match parseElemsAux (parseValue n) (cs1.length + 1) cs1 with
          | some (vs, rem) => some (PyVal.pyList vs, rem)
          | none => none
      else if c = '"' then
        match parseStringBody rest with
        | some (s, rem) => some (PyVal.pyStr s, rem)
        | none => none
      else if c = 't' then
        if strHasPre ("rue").data rest then some (PyVal.pyBool true, rest.drop 3) else none
      else if c = 'f' then
        if strHasPre ("alse").data rest then some (PyVal.pyBool false, rest.drop 4) else none
      else if c = 'n' then
        if strHasPre ("ull").data rest then some (PyVal.pyNone, rest.drop 3) else none
      else if c = 'N' then
        if strHasPre ("aN").data rest then some (PyVal.pyNaN, rest.drop 2) else none
      else if c = 'I' then
        if strHasPre ("nfinity").data rest then some (PyVal.pyInf false, rest.drop 7) else none
      else if c = '-' then
        if strHasPre ("Infinity").data rest then some (PyVal.pyInf true, rest.drop 8)
        else parseNumber (c :: rest)
      else parseNumber (c :: rest)

/-- Python `json.loads` with its default settings (which accept the
constants `NaN`, `Infinity` and `-Infinity`): parse one document and
require the rest of the input to be whitespace. -/
def jsonLoads (cs : List Char) : Option PyVal :=
  match parseValue (cs.length + 1) (skipWs cs) with
  | some (v, rem) => if (skipWs rem).isEmpty then some v else none
  | none => none

/-- `dict.get k` on the parsed object; a later duplicate key overwrites
an earlier one, as when `json.loads` builds the dict. -/
def pyGet (kvs : List (List Char × PyVal)) (k : List Char) : Option PyVal :=
  kvs.foldl (fun acc kv => if kv.1 = k then some kv.2 else acc) none

/-- Iteration order of the keys of the dict built from `kvs`: first
occurrence wins the position, as in Python dicts. -/
def dictKeys (kvs : List (List Char × PyVal)) : List (List Char) :=
  kvs.foldl (fun acc kv => if acc.contains kv.1 then acc else acc ++ [kv.1]) []

/-- The line-reassembly loop of `_parse_jsonlines_output` (lines 151-173):
skip blank and metadata lines, start a new candidate at a `{`-leading
line (flushing a pending one), append continuation lines, and flush the
candidate once it ends with `}`; arguments are the remaining lines, the
accumulated `json_lines` and the current candidate.  The source guards
the flush with `current_json and ...`; after either update the candidate
contains the non-blank stripped line, hence is non-empty, so only the
`endswith('}')` test remains in each branch. -/
def collectJson : List (List Char) → List (List Char) → List Char → List (List Char)
  | [], acc, cur => if cur.isEmpty then acc else acc ++ [cur]
  | l :: ls, acc, cur =>
    if (pyStrip l).isEmpty then collectJson ls acc cur
    else if strHasPre ("Time:").data (pyStrip l) || strHasPre ("Request Id:").data (pyStrip l) then
      collectJson ls acc cur
    else if startsBrace (pyStrip l) then
      if endsBrace (pyStrip l) then
        collectJson ls ((if cur.isEmpty then acc else acc ++ [cur]) ++ [pyStrip l]) []
      else collectJson ls (if cur.isEmpty then acc else acc ++ [cur]) (pyStrip l)
    else
      if endsBrace (cur ++ pyStrip l) then collectJson ls (acc ++ [cur ++ pyStrip l]) []
      else collectJson ls acc (cur ++ pyStrip l)

/-- `json_lines` as assembled from the raw output: clean, strip, split on
newlines and reassemble candidates. -/
def jsonCandidates (out : List Char) : List (List Char) :=
  collectJson (splitNl (pyStrip (cleanOut out))) [] []

/-- Printed lines joined with newlines: the right inverse of `splitNl`
on newline-free lines. -/
def joinNl : List (List Char) → List Char
  | [] => []
  | [l] => l
  | l :: ls => l ++ '\n' :: joinNl ls

/-- Python iteration over a value, as used by `data_rows.extend(data)`
and the `result_columns` comprehension: lists yield their elements,
strings their characters, dicts their keys; other values raise
`TypeError`. -/
def pyIter : PyVal → Except PyErr (List PyVal)
  | PyVal.pyList xs => Except.ok xs
  | PyVal.pyStr cs => Except.ok (cs.map fun c => PyVal.pyStr [c])
  | PyVal.pyDict kvs => Except.ok ((dictKeys kvs).map PyVal.pyStr)
  | _ => Except.error PyErr.typeError

/-- `col['name']` for an element of `result_columns`: only a dict
containing the key succeeds; a missing key raises `KeyError`, any other
value raises `TypeError`. -/
def extractColName (col : PyVal) : Except PyErr PyVal :=
  match col with
  | PyVal.pyDict kvs =>
    match pyGet kvs ("name").data with
    | some v => Except.ok v
    | none => Except.error PyErr.keyError
  | _ => Except.error PyErr.typeError

/-- `msg.get('message_type') == s` for a string literal `s`. -/
def optIsStr : Option PyVal → List Char → Bool
  | some (PyVal.pyStr t), s => decide (t = s)
  | _, _ => false

/-- Processing of one parsed message (lines 186-194): a `START` message
replaces the column list, a `DATA` message extends the row list, any
other dict is ignored; a non-dict raises `AttributeError` at
`msg.get`. -/
def stepMsg (st : List PyVal × List PyVal) (m : PyVal) :
    Except PyErr (List PyVal × List PyVal) :=
  match m with
  | PyVal.pyDict kvs =>
    if optIsStr (pyGet kvs ("message_type").data) ("START").data then
      match pyIter ((pyGet kvs ("result_columns").data).getD (PyVal.pyList [])) with
      | Except.ok objs =>
        match objs.mapM extractColName with
        | Except.ok cols => Except.ok (cols, st.2)
        | Except.error e => Except.error e
      | Except.error e => Except.error e
    else if optIsStr (pyGet kvs ("message_type").data) ("DATA").data then
      match pyIter ((pyGet kvs ("data").data).getD (PyVal.pyList [])) with
      | Except.ok xs => Except.ok (st.1, st.2 ++ xs)
      | Except.error e => Except.error e
    else Except.ok st
  | _ => Except.error PyErr.attributeError

/-- One iteration of the `for json_line in json_lines` loop: a line that
fails `json.loads` is skipped by the `except json.JSONDecodeError`
handler. -/
def stepLine (st : List PyVal × List PyVal) (line : List Char) :
    Except PyErr (List PyVal × List PyVal) :=
  match jsonLoads line with
  | some m => stepMsg st m
  | none => Except.ok st

/-- The message loop of `_parse_jsonlines_output`, producing the final
`columns` and `data_rows`. -/
def interpretMessages (cands : List (List Char)) :
    Except PyErr (List PyVal × List PyVal) :=
  cands.foldlM stepLine ([], [])

/-- The decoded table: ordered column labels and rows of cells. -/
structure ResultSet where
  columns : List PyVal
  rows : List (List PyVal)
  deriving Repr

/-- An empty `pd.DataFrame()`. -/
def emptyRS : ResultSet := ⟨[], []⟩

/-- `df.empty`. -/
def ResultSet.isEmpty (rs : ResultSet) : Bool :=
  rs.rows.isEmpty || rs.columns.isEmpty

def isListVal : PyVal → Bool
  | PyVal.pyList _ => true
  | _ => false

def isScalarVal : PyVal → Bool
  | PyVal.pyList _ => false
  | PyVal.pyDict _ => false
  | _ => true

def cellsOf : PyVal → List PyVal
  | PyVal.pyList xs => xs
  | _ => []

def isDictVal : PyVal → Bool
  | PyVal.pyDict _ => true
  | _ => false

/-- Pandas pads ragged rows on the right with NaN. -/
def padTo (w : Nat) (r : List PyVal) : List PyVal :=
  r ++ List.replicate (w - r.length) PyVal.pyNaN

/-- Union of the rows' dict keys in first-appearance order, the column
order `pd.DataFrame` uses for a list of dicts. -/
def unionKeys (rows : List PyVal) : List (List Char) :=
  rows.foldl
    (fun acc r =>
      match r with
      | PyVal.pyDict kvs =>
        (dictKeys kvs).foldl (fun a k => if a.contains k then a else a ++ [k]) acc
      | _ => acc)
    []

/-- Width of the frame `pd.DataFrame(data_rows)` builds from list-shaped
rows: the length of the longest row. -/
def frameWidth (rows : List PyVal) : Nat :=
  ((rows.map cellsOf).map List.length).foldl max 0

/-- Lines 200-206: `pd.DataFrame(data_rows)` followed by
`df.columns = columns`.  With no columns or no rows the empty frame is
returned; otherwise rows that are all lists form a matrix padded to the
width of the longest row, rows that are all dicts form a frame over the
first-appearance union of their keys (missing cells filled with NaN),
rows that are all scalars form a single column, and
`df.columns = columns` raises `ValueError` when the declared column
count differs from that width.  (Mixed-shape rows also raise; they are
collapsed into `ValueError` here.) -/
def buildDataFrame (cols rows : List PyVal) : Except PyErr ResultSet :=
  if cols.isEmpty || rows.isEmpty then Except.ok emptyRS
  else if rows.all isListVal then
    if cols.length = frameWidth rows then
      Except.ok ⟨cols, (rows.map cellsOf).map (padTo (frameWidth rows))⟩
    else Except.error PyErr.valueError
  else if rows.all isDictVal then
    if cols.length = (unionKeys rows).length then
      Except.ok ⟨cols, rows.map (fun r =>
        (unionKeys rows).map (fun k =>
          match r with
          | PyVal.pyDict kvs => (pyGet kvs k).getD PyVal.pyNaN
          | _ => PyVal.pyNaN))⟩
    else Except.error PyErr.valueError
  else if rows.all isScalarVal then
    if cols.length = 1 then Except.ok ⟨cols, rows.map (fun r => [r])⟩
    else Except.error PyErr.valueError
  else Except.error PyErr.valueError

/-- `_parse_jsonlines_output` (lines 136-206): clean and reassemble the
output into JSON candidates, fold the parsed messages, and build the
DataFrame.  `Except.error` marks an exception escaping the function. -/
def parse_jsonlines_output (out : List Char) : Except PyErr ResultSet :=
  match interpretMessages (jsonCandidates out) with
  | Except.ok (cols, rows) => buildDataFrame cols rows
  | Except.error e => Except.error e

/-- Outcome of one `subprocess.run` invocation. -/
inductive RunOutcome where
  | completed (returncode : Int) (stdout stderr : List Char)
  | timedOut
  | fileNotFound

/-- The command list built at lines 85-88. -/
def primaryCmd (query : List Char) : List (List Char) :=
  [("docker").data, ("exec").data, ("firebolt-core").data, ("fb").data,
   ("-C").data, ("-c").data, query, ("-f").data, ("JSONLines_Compact").data]

/-- The fallback command list built at lines 105-108. -/
def csvCmd (query : List Char) : List (List Char) :=
  [("docker").data, ("exec").data, ("firebolt-core").data, ("fb").data,
   ("-C").data, ("-c").data, query, ("-f").data, ("CSV").data]

/-- What `execute_query` returns, together with the trace of CLI
invocations it performed (command list and timeout of each). -/
structure ExecTrace where
  result : ResultSet
  time : ℚ
  success : Bool
  calls : List (List (List Char) × ℚ)
  deriving Repr

/-- `execute_query` (lines 76-134).  `run` maps a command and timeout to
the outcome of `subprocess.run`; `elapsed` is the time measured at line
97 and `elapsedExc` the time re-measured inside the `except` handlers;
`readCsv` models `pd.read_csv`, with `none` for a raised exception. -/
def execute_query (run : List (List Char) → ℚ → RunOutcome) (query : List Char)
    (timeout : ℚ) (elapsed elapsedExc : ℚ)
    (readCsv : List Char → Option ResultSet) : ExecTrace :=
  match run (primaryCmd query) timeout with
  | RunOutcome.timedOut => ⟨emptyRS, timeout, false, [(primaryCmd query, timeout)]⟩
  | RunOutcome.fileNotFound => ⟨emptyRS, elapsedExc, false, [(primaryCmd query, timeout)]⟩
  | RunOutcome.completed rc out _ =>
    if rc = 0 then
      if (pyStripFull out).isEmpty then ⟨emptyRS, elapsed, true, [(primaryCmd query, timeout)]⟩
      else
        match parse_jsonlines_output out with
        | Except.error _ => ⟨emptyRS, elapsedExc, false, [(primaryCmd query, timeout)]⟩
        | Except.ok df =>
          if df.isEmpty then
            match run (csvCmd query) timeout with
            | RunOutcome.timedOut =>
              ⟨emptyRS, timeout, false, [(primaryCmd query, timeout), (csvCmd query, timeout)]⟩
            | RunOutcome.fileNotFound =>
              ⟨emptyRS, elapsedExc, false, [(primaryCmd query, timeout), (csvCmd query, timeout)]⟩
            | RunOutcome.completed rc2 out2 _ =>
              ⟨if rc2 = 0 && !(pyStripFull out2).isEmpty then (readCsv out2).getD emptyRS
                else df,
               elapsed, true, [(primaryCmd query, timeout), (csvCmd query, timeout)]⟩
          else ⟨df, elapsed, true, [(primaryCmd query, timeout)]⟩
    else ⟨emptyRS, elapsed, false, [(primaryCmd query, timeout)]⟩

/-- A Python number as held by the filter state: the amount slider
yields floats, but callers may pass ints.  Floats are modelled as exact
rationals. -/
inductive PyNum where
  | pyI : Int → PyNum
  | pyF : ℚ → PyNum
  deriving Repr

def PyNum.toQ : PyNum → ℚ
  | PyNum.pyI i => (i : ℚ)
  | PyNum.pyF q => q

/-- Python `==` on numbers compares values across int/float. -/
def pyNumEqB (x y : PyNum) : Bool :=
  decide (x.toQ = y.toQ)

def digitChar (n : Nat) : Char :=
  Char.ofNat (48 + n)

def natReprAux : Nat → Nat → List Char
  | 0, _ => []
  | f + 1, m => if m < 10 then [digitChar m] else natReprAux f (m / 10) ++ [digitChar (m % 10)]

def natRepr (n : Nat) : List Char :=
  natReprAux (n + 1) n

/-- Decimal digits of `r / d` (`0 < r < d`), stopping at remainder 0;
the fuel caps the expansion for non-terminating fractions. -/
def fracDigits : Nat → Nat → Nat → List Char
  | 0, _, _ => []
  | f + 1, r, d =>
    if r = 0 then [] else digitChar (r * 10 / d) :: fracDigits f (r * 10 % d) d

def intRepr (i : Int) : List Char :=
  if i < 0 then '-' :: natRepr i.natAbs else natRepr i.natAbs

/-- Python `str()` of a float, exact for decimally-representable values
(all values exercised here): integer part, a dot, then the fraction
digits (`.0` when integral). -/
def floatRepr (q : ℚ) : List Char :=
  let sign := if q < 0 then ['-'] else []
  let n := q.num.natAbs
  let d := q.den
  sign ++ natRepr (n / d) ++ '.' :: (if n % d = 0 then ['0'] else fracDigits 17 (n % d) d)

/-- Rendering of a number inside an f-string. -/
def pyNumRepr : PyNum → List Char
  | PyNum.pyI i => intRepr i
  | PyNum.pyF q => floatRepr q

/-- `execute_benchmark_query` line 858. -/
def street_clause (street_filter : List Char) : List Char :=
  if street_filter.isEmpty then []
  else ("AND street_name = '").data ++ street_filter ++ ("'").data

/-- `execute_benchmark_query` line 859 (always added, even for the
default range). -/
def amount_clause (a b : PyNum) : List Char :=
  ("AND calculated_fine_amount BETWEEN ").data ++ pyNumRepr a ++ (" AND ").data ++ pyNumRepr b

/-- `execute_benchmark_query` line 860. -/
def car_clause (car_filter : List Char) : List Char :=
  if car_filter.isEmpty then []
  else ("AND vehicle_make = '").data ++ car_filter ++ ("'").data

/-- The Q5 SQL template (lines 435-454) with its three `str.format`
placeholders substituted. -/
def q5_sql (street_f amount_f car_f : List Char) : List Char :=
  ("\n            SELECT \n                summons_number,\n                street_name,\n                calculated_fine_amount,\n                issue_date,\n                vehicle_make,\n                CASE \n                    WHEN calculated_fine_amount > 100 THEN 'High Fine'\n                    WHEN calculated_fine_amount > 50 THEN 'Medium Fine'\n                    ELSE 'Low Fine'\n                END as fine_category\n            FROM violations \n            WHERE calculated_fine_amount > 0\n                ").data
    ++ street_f
    ++ ("\n                ").data
    ++ amount_f
    ++ ("\n                ").data
    ++ car_f
    ++ ("\n            ORDER BY calculated_fine_amount DESC\n            LIMIT 100\n        ").data

/-- The SQL string executed by `execute_benchmark_query` for Q5
(lines 855-866): filter clauses substituted into the template. -/
def benchmark_q5 (street_filter : List Char) (amount_range : PyNum × PyNum)
    (car_filter : List Char) : List Char :=
  q5_sql (street_clause street_filter)
    (amount_clause amount_range.1 amount_range.2)
    (car_clause car_filter)

def lowerAll (s : List Char) : List Char :=
  s.map Char.toLower

def upperAll (s : List Char) : List Char :=
  s.map Char.toUpper

/-- Python `sql.rstrip(';')`. -/
def rstripSemis (s : List Char) : List Char :=
  (s.reverse.dropWhile (· = ';')).reverse

/-- `amount_range != (0.0, 200.0)` is false exactly here (Python tuple
equality compares the numbers by value). -/
def amountIsDefault (ar : PyNum × PyNum) : Bool :=
  pyNumEqB ar.1 (PyNum.pyF 0) && pyNumEqB ar.2 (PyNum.pyF 200)

/-- The `conditions` list of `execute_custom_query` (lines 905-912):
each set filter contributes one fragment, unset filters contribute
nothing, the amount fragment only when the range differs from the
default `(0.0, 200.0)`. -/
def custom_conditions (street car : List Char) (ar : PyNum × PyNum) : List (List Char) :=
  (if street.isEmpty then [] else [("street_name = '").data ++ street ++ ("'").data])
    ++ (if car.isEmpty then [] else [("vehicle_make = '").data ++ car ++ ("'").data])
    ++ (if amountIsDefault ar then []
        else [("calculated_fine_amount BETWEEN ").data ++ pyNumRepr ar.1
              ++ (" AND ").data ++ pyNumRepr ar.2])

/-- `" AND ".join(conditions)`. -/
def joinAnd : List (List Char) → List Char
  | [] => []
  | [c] => c
  | c :: cs => c ++ (" AND ").data ++ joinAnd cs

/-- Line 918: `' WHERE ' in sql.upper() or ' where ' in sql`. -/
def hasWhereTok (sql : List Char) : Bool :=
  strHasSub (" WHERE ").data (upperAll sql) || strHasSub (" where ").data sql

/-- The SQL string executed by `execute_custom_query` (lines 892-926):
the input is stripped; filters are injected only when requested and the
lowercased text mentions `violations`, and only when some filter is set
or the amount range differs from the default. -/
def custom_query_sql (custom_sql : List Char) (apply_filters : Bool)
    (street_filter : List Char) (amount_range : PyNum × PyNum)
    (car_filter : List Char) : List Char :=
  let sql := pyStrip custom_sql
  if apply_filters && strHasSub ("violations").data (lowerAll sql) then
    if !street_filter.isEmpty || !car_filter.isEmpty || !amountIsDefault amount_range then
      let conditions := custom_conditions street_filter car_filter amount_range
      if !conditions.isEmpty then
        let fc := joinAnd conditions
        if hasWhereTok sql then
          rstripSemis sql ++ (" AND (").data ++ fc ++ (")").data
        else
          rstripSemis sql ++ (" WHERE ").data ++ fc
      else sql
    else sql
  else sql

/-! ### Helper lemmas -/

theorem le_foldl_max_self (l : List Nat) (b : Nat) : b ≤ l.foldl max b := by
  induction l generalizing b with
  | nil => exact le_rfl
  | cons y ys ih => exact le_trans (le_max_left b y) (ih (max b y))

theorem le_foldl_max (l : List Nat) (a x : Nat) (hx : x ∈ l) : x ≤ l.foldl max a := by
  induction l generalizing a with
  | nil => cases hx
  | cons y ys ih =>
    rw [List.foldl_cons]
    rcases List.mem_cons.mp hx with h | h
    · subst h
      exact le_trans (le_max_right a x) (le_foldl_max_self ys (max a x))
    · exact ih (max a y) h

theorem padTo_length (w : Nat) (r : List PyVal) (h : r.length ≤ w) :
    (padTo w r).length = w := by
  simp [padTo]
  omega

theorem padTo_eq_self (w : Nat) (r : List PyVal) (h : r.length = w) :
    padTo w r = r := by
  simp [padTo, h]

theorem foldl_max_allc (l : List Nat) (c : Nat) (hall : ∀ x ∈ l, x = c) (b : Nat) :
    l.foldl max b = if l = [] then b else max b c := by
  induction l generalizing b with
  | nil => simp
  | cons y ys ih =>
    have hy : y = c := hall y (List.mem_cons_self y ys)
    subst hy
    rw [List.foldl_cons, ih (fun x hx => hall x (List.mem_cons_of_mem _ hx))]
    by_cases hys : ys = [] <;> simp [hys, max_assoc]

theorem foldl_max_const (l : List Nat) (c : Nat) (hne : l ≠ [])
    (hall : ∀ x ∈ l, x = c) : l.foldl max 0 = c := by
  rw [foldl_max_allc l c hall 0]
  simp [hne]

theorem cleanOut_eq_self (s : List Char) (h : ∀ c ∈ s, keptChar c = true) :
    cleanOut s = s :=
  List.filter_eq_self.mpr h

theorem keptChar_of_plain (c : Char) (h1 : 32 ≤ c.toNat) (h2 : c.toNat ≤ 126) :
    keptChar c = true := by
  simp only [keptChar, Bool.or_eq_true, Bool.and_eq_true, decide_eq_true_eq]
  exact Or.inl (Or.inl (Or.inl ⟨h1, h2⟩))

theorem not_nl_of_plain (p : List Char) (h : ∀ c ∈ p, 32 ≤ c.toNat ∧ c.toNat ≤ 126) :
    '\n' ∉ p := by
  intro hmem
  exact absurd (h _ hmem).1 (by decide)

theorem isEmpty_false_of_ne_nil (s : List Char) (h : s ≠ []) : s.isEmpty = false := by
  cases s with
  | nil => cases h rfl
  | cons a t => rfl

theorem trimL_eq_self (s : List Char) (h : ∀ c, s.head? = some c → isWsB c = false) :
    trimL s = s := by
  unfold trimL
  cases s with
  | nil => rfl
  | cons a t =>
    rw [List.dropWhile_cons, if_neg]
    simp [h a rfl]

theorem trimR_eq_self (s : List Char) (h : ∀ c, s.getLast? = some c → isWsB c = false) :
    trimR s = s := by
  unfold trimR
  cases hr : s.reverse with
  | nil =>
    rw [List.reverse_eq_nil_iff.mp hr]
    rfl
  | cons a t =>
    have ha : s.getLast? = some a := by
      rw [← List.head?_reverse, hr]
      rfl
    rw [List.dropWhile_cons, if_neg (by simp [h a ha]), ← hr, List.reverse_reverse]

theorem pyStrip_eq_self (s : List Char) (h1 : ∀ c, s.head? = some c → isWsB c = false)
    (h2 : ∀ c, s.getLast? = some c → isWsB c = false) : pyStrip s = s := by
  unfold pyStrip
  rw [trimL_eq_self s h1, trimR_eq_self s h2]

theorem ne_nil_of_startsBrace (s : List Char) (h : startsBrace s = true) : s ≠ [] := by
  cases s with
  | nil => cases h
  | cons a t => simp

theorem head_of_startsBrace (s : List Char) (h : startsBrace s = true) :
    s.head? = some '{' := by
  cases s with
  | nil => cases h
  | cons a t =>
    have ha : a = '{' := by simpa [startsBrace] using h
    rw [ha]
    rfl

theorem startsBrace_append (p x : List Char) (hp : startsBrace p = true) :
    startsBrace (p ++ x) = true := by
  cases p with
  | nil => cases hp
  | cons a t => exact hp

theorem endsBrace_getLast (s : List Char) (h : endsBrace s = true) :
    s.getLast? = some '}' := by
  unfold endsBrace at h
  cases hl : s.getLast? with
  | none =>
    rw [hl] at h
    cases h
  | some c =>
    rw [hl] at h
    simp only [decide_eq_true_eq] at h
    rw [h]

theorem skip_false_of_brace (s : List Char) (h : startsBrace s = true) :
    strHasPre ("Time:").data s = false ∧ strHasPre ("Request Id:").data s = false := by
  cases s with
  | nil => cases h
  | cons a t =>
    have ha : a = '{' := by simpa [startsBrace] using h
    subst ha
    constructor <;> rfl

theorem pyStrip_eq_self_of_brace (s : List Char) (h1 : s.head? = some '{')
    (h2 : s.getLast? = some '}') : pyStrip s = s := by
  apply pyStrip_eq_self
  · intro c hc
    rw [h1] at hc
    injection hc with hc
    rw [← hc]
    rfl
  · intro c hc
    rw [h2] at hc
    injection hc with hc
    rw [← hc]
    rfl

theorem splitNl_no_nl (a : List Char) (ha : '\n' ∉ a) : splitNl a = [a] := by
  induction a with
  | nil => rfl
  | cons c t ih =>
    have hc : ¬(c = '\n') := fun h => ha (h ▸ List.mem_cons_self c t)
    simp only [splitNl, if_neg hc, ih (fun h => ha (List.mem_cons_of_mem _ h))]

theorem splitNl_append_cons (a b : List Char) (ha : '\n' ∉ a) :
    splitNl (a ++ '\n' :: b) = a :: splitNl b := by
  induction a with
  | nil =>
    show splitNl ('\n' :: b) = [] :: splitNl b
    simp [splitNl]
  | cons c t ih =>
    have hc : ¬(c = '\n') := fun h => ha (h ▸ List.mem_cons_self c t)
    rw [List.cons_append]
    simp only [splitNl, if_neg hc, ih (fun h => ha (List.mem_cons_of_mem _ h))]

theorem getLast?_append_right (a b : List Char) (hb : b ≠ []) :
    (a ++ b).getLast? = b.getLast? := by
  rw [List.getLast?_append]
  cases hbl : b.getLast? with
  | none => exact absurd (List.getLast?_eq_none_iff.mp hbl) hb
  | some c => rfl

theorem joinNl_ne_nil (p : List Char) (ps : List (List Char)) (hp : p ≠ []) :
    joinNl (p :: ps) ≠ [] := by
  cases ps with
  | nil => exact hp
  | cons q qs =>
    show p ++ '\n' :: joinNl (q :: qs) ≠ []
    simp

theorem mem_joinNl (ps : List (List Char)) (c : Char) (h : c ∈ joinNl ps) :
    c = '\n' ∨ ∃ p ∈ ps, c ∈ p := by
  induction ps with
  | nil => cases h
  | cons p qs ih =>
    cases qs with
    | nil => exact Or.inr ⟨p, List.mem_cons_self p [], h⟩
    | cons q rs =>
      rw [show joinNl (p :: q :: rs) = p ++ '\n' :: joinNl (q :: rs) from rfl] at h
      rcases List.mem_append.mp h with h1 | h1
      · exact Or.inr ⟨p, List.mem_cons_self p (q :: rs), h1⟩
      · rcases List.mem_cons.mp h1 with h2 | h2
        · exact Or.inl h2
        · rcases ih h2 with h3 | ⟨r, hr, hcr⟩
          · exact Or.inl h3
          · exact Or.inr ⟨r, List.mem_cons_of_mem _ hr, hcr⟩

theorem splitNl_joinNl (ps : List (List Char)) (hne : ps ≠ [])
    (h : ∀ p ∈ ps, '\n' ∉ p) : splitNl (joinNl ps) = ps := by
  induction ps with
  | nil => cases hne rfl
  | cons p qs ih =>
    cases qs with
    | nil => exact splitNl_no_nl p (h p (List.mem_cons_self p []))
    | cons q rs =>
      show splitNl (p ++ '\n' :: joinNl (q :: rs)) = p :: q :: rs
      rw [splitNl_append_cons p _ (h p (List.mem_cons_self p (q :: rs))),
        ih (List.cons_ne_nil q rs) (fun r hr => h r (List.mem_cons_of_mem _ hr))]

theorem getLast?_joinNl (ps : List (List Char)) (h : ∀ p ∈ ps, p ≠ []) :
    (joinNl ps).getLast? = ps.flatten.getLast? := by
  induction ps with
  | nil => rfl
  | cons p qs ih =>
    cases qs with
    | nil =>
      simp [joinNl]
    | cons q rs =>
      have hq : q ≠ [] := h q (List.mem_cons_of_mem _ (List.mem_cons_self q rs))
      have hj : joinNl (q :: rs) ≠ [] := joinNl_ne_nil q rs hq
      have hf : (q :: rs).flatten ≠ [] := by
        show q ++ rs.flatten ≠ []
        intro hbad
        exact hq (List.append_eq_nil.mp hbad).1
      show (p ++ '\n' :: joinNl (q :: rs)).getLast? = (p ++ (q :: rs).flatten).getLast?
      rw [getLast?_append_right p _ (by simp), getLast?_append_right p _ hf,
        show ('\n' :: joinNl (q :: rs)) = ['\n'] ++ joinNl (q :: rs) from rfl,
        getLast?_append_right _ _ hj]
      exact ih (fun r hr => h r (List.mem_cons_of_mem _ hr))

/-- One `collectJson` step on a non-blank continuation line (not
`{`-leading, not a metadata line). -/
theorem collectJson_cons_append (l : List Char) (ls : List (List Char))
    (acc : List (List Char)) (cur : List Char)
    (hstrip : pyStrip l = l) (hne : l ≠ [])
    (hb : startsBrace l = false)
    (ht1 : strHasPre ("Time:").data l = false)
    (ht2 : strHasPre ("Request Id:").data l = false) :
    collectJson (l :: ls) acc cur =
      if endsBrace (cur ++ l) then collectJson ls (acc ++ [cur ++ l]) []
      else collectJson ls acc (cur ++ l) := by
  simp only [collectJson, hstrip, isEmpty_false_of_ne_nil l hne, ht1, ht2, hb,
    Bool.or_false, Bool.false_eq_true, if_false]

/-- One `collectJson` step on a `{`-leading line. -/
theorem collectJson_cons_brace (l : List Char) (ls : List (List Char))
    (acc : List (List Char)) (cur : List Char)
    (hstrip : pyStrip l = l) (hb : startsBrace l = true) :
    collectJson (l :: ls) acc cur =
      if endsBrace l then
        collectJson ls ((if cur.isEmpty then acc else acc ++ [cur]) ++ [l]) []
      else collectJson ls (if cur.isEmpty then acc else acc ++ [cur]) l := by
  have hne := ne_nil_of_startsBrace l hb
  obtain ⟨ht1, ht2⟩ := skip_false_of_brace l hb
  simp only [collectJson, hstrip, isEmpty_false_of_ne_nil l hne, ht1, ht2, hb,
    Bool.or_false, Bool.false_eq_true, if_false, if_true]

/-- Feeding `collectJson` a run of continuation pieces whose cumulative
candidate only ends with `}` once all pieces are appended accumulates
them into one flushed candidate. -/
theorem collectJson_pieces (ps : List (List Char)) :
    ∀ (acc : List (List Char)) (cur : List Char), cur ≠ [] →
      (∀ p ∈ ps, p ≠ [] ∧ pyStrip p = p ∧ startsBrace p = false ∧
        strHasPre ("Time:").data p = false ∧ strHasPre ("Request Id:").data p = false) →
      (∀ k, k < ps.length → endsBrace (cur ++ (ps.take k).flatten) = false) →
      endsBrace (cur ++ ps.flatten) = true →
      collectJson ps acc cur = acc ++ [cur ++ ps.flatten] := by
  induction ps with
  | nil =>
    intro acc cur hcur _ _ _
    show (if cur.isEmpty then acc else acc ++ [cur]) = acc ++ [cur ++ [].flatten]
    rw [isEmpty_false_of_ne_nil cur hcur]
    simp
  | cons p qs ih =>
    intro acc cur hcur hps hpre hend
    obtain ⟨hpne, hpstrip, hpb, ht1, ht2⟩ := hps p (List.mem_cons_self p qs)
    rw [collectJson_cons_append p qs acc cur hpstrip hpne hpb ht1 ht2]
    cases qs with
    | nil =>
      have hEnd : endsBrace (cur ++ p) = true := by
        simpa using hend
      rw [if_pos hEnd]
      show acc ++ [cur ++ p] = acc ++ [cur ++ (p :: []).flatten]
      simp
    | cons q rs =>
      have hEnd : endsBrace (cur ++ p) = false := by
        have h0 := hpre 1 (by simp)
        simpa using h0
      rw [if_neg (by simp [hEnd])]
      have hcur' : cur ++ p ≠ [] := by
        intro hbad
        exact hpne (List.append_eq_nil.mp hbad).2
      rw [ih acc (cur ++ p) hcur'
        (fun r hr => hps r (List.mem_cons_of_mem _ hr))
        (fun k hk => by
          have hk2 := hpre (k + 1) (by simpa using Nat.succ_lt_succ hk)
          simpa [List.take_succ_cons, List.append_assoc] using hk2)
        (by simpa [List.append_assoc] using hend)]
      simp [List.append_assoc]

/-- Every row of a successfully built frame has exactly as many cells as
there are column labels. -/
theorem buildDataFrame_width (cols rows : List PyVal) (rs : ResultSet)
    (h : buildDataFrame cols rows = Except.ok rs) :
    ∀ r ∈ rs.rows, r.length = rs.columns.length := by
  unfold buildDataFrame at h
  split at h
  · injection h with h'
    subst h'
    intro r hr
    simp [emptyRS] at hr
  · split at h
    · split at h
      case isTrue hw =>
        injection h with h'
        subst h'
        intro r hr
        simp only [List.mem_map] at hr
        obtain ⟨x, ⟨m, hm, rfl⟩, rfl⟩ := hr
        have hle : (cellsOf m).length ≤ frameWidth rows := by
          apply le_foldl_max
          simp only [List.map_map, List.mem_map]
          exact ⟨m, hm, rfl⟩
        simp only [padTo_length _ _ hle]
        exact hw.symm
      · cases h
    · split at h
      · split at h
        case isTrue hk =>
          injection h with h'
          subst h'
          intro r hr
          simp only [List.mem_map] at hr
          obtain ⟨m, hm, rfl⟩ := hr
          simp only [List.length_map]
          exact hk.symm
        · cases h
      · split at h
        · split at h
          case isTrue h1 =>
            injection h with h'
            subst h'
            intro r hr
            simp only [List.mem_map] at hr
            obtain ⟨m, _, rfl⟩ := hr
            simp [h1]
          · cases h
        · cases h

/-- `stepMsg` on a well-formed START message replaces the column list. -/
theorem stepMsg_start (kvs : List (List Char × PyVal)) (objs cols : List PyVal)
    (st : List PyVal × List PyVal)
    (hmt : pyGet kvs ("message_type").data = some (PyVal.pyStr ("START").data))
    (hrc : pyGet kvs ("result_columns").data = some (PyVal.pyList objs))
    (hcols : objs.mapM extractColName = Except.ok cols) :
    stepMsg st (PyVal.pyDict kvs) = Except.ok (cols, st.2) := by
  have h1 : optIsStr (some (PyVal.pyStr ("START").data)) (("START").data) = true := by decide
  simp only [stepMsg, hmt, hrc, h1, if_true, Option.getD_some, pyIter, hcols]

/-- `stepMsg` on a well-formed DATA message extends the row list. -/
theorem stepMsg_data (kvs : List (List Char × PyVal)) (xs : List PyVal)
    (st : List PyVal × List PyVal)
    (hmt : pyGet kvs ("message_type").data = some (PyVal.pyStr ("DATA").data))
    (hd : pyGet kvs ("data").data = some (PyVal.pyList xs)) :
    stepMsg st (PyVal.pyDict kvs) = Except.ok (st.1, st.2 ++ xs) := by
  have h1 : optIsStr (some (PyVal.pyStr ("DATA").data)) (("START").data) = false := by decide
  have h2 : optIsStr (some (PyVal.pyStr ("DATA").data)) (("DATA").data) = true := by decide
  simp only [stepMsg, hmt, hd, h1, h2, Bool.false_eq_true, if_false, if_true,
    Option.getD_some, pyIter]

/-- Folding the message loop over well-formed DATA messages appends
their rows in arrival order and leaves the columns unchanged. -/
theorem foldl_stepLine_data (ts : List (List Char)) (gs : List (List (List PyVal)))
    (h : List.Forall₂ (fun t g => ∃ kvs, jsonLoads t = some (PyVal.pyDict kvs) ∧
      pyGet kvs ("message_type").data = some (PyVal.pyStr ("DATA").data) ∧
      pyGet kvs ("data").data = some (PyVal.pyList (g.map PyVal.pyList))) ts gs) :
    ∀ cols acc : List PyVal,
      ts.foldlM stepLine (cols, acc) =
        Except.ok (cols, acc ++ gs.flatten.map PyVal.pyList) := by
  induction h with
  | nil =>
    intro cols acc
    show pure (cols, acc) = Except.ok (cols, acc ++ List.map PyVal.pyList [].flatten)
    simp only [List.flatten_nil, List.map_nil, List.append_nil]
    rfl
  | @cons t g ts' gs' hh _ ih =>
    intro cols acc
    obtain ⟨kvs, hl, hmt, hd⟩ := hh
    rw [List.foldlM_cons]
    have hstep : stepLine (cols, acc) t = Except.ok (cols, acc ++ g.map PyVal.pyList) := by
      unfold stepLine
      rw [hl]
      exact stepMsg_data kvs (g.map PyVal.pyList) (cols, acc) hmt hd
    rw [hstep]
    show ts'.foldlM stepLine (cols, acc ++ g.map PyVal.pyList) = _
    rw [ih (cols) (acc ++ g.map PyVal.pyList)]
    simp

/-! ### Claim C1 -/

/-- C1, counterexample.  The claim asserts the decoded table carries the
declared column names for any number `M ≥ 0` of data rows.  An input
consisting of exactly one well-formed START message declaring column `x`
and zero DATA messages decodes to the empty ResultSet, whose column list
is not `[x]`. -/
theorem decode_start_without_rows_drops_columns :
    parse_jsonlines_output ("\x7b\"message_type\":\"START\",\"result_columns\":[\x7b\"name\":\"x\"\x7d]\x7d").data =
      Except.ok emptyRS ∧
    emptyRS.columns ≠ [PyVal.pyStr ['x']] := by
  constructor
  · rfl
  · simp [emptyRS]

/-- C1, amended: when the candidates assembled from the cleaned input
are one well-formed START message followed by well-formed DATA messages
whose rows all match the declared column count, and at least one column
is declared and at least one row carried (`M ≥ 1`), the decoder returns
exactly the declared columns and the rows in arrival order. -/
theorem decode_wellformed_stream (out t0 : List Char) (ts : List (List Char))
    (kvs0 : List (List Char × PyVal)) (objs cols : List PyVal)
    (gs : List (List (List PyVal)))
    (hc : jsonCandidates out = t0 :: ts)
    (h0 : jsonLoads t0 = some (PyVal.pyDict kvs0))
    (hmt0 : pyGet kvs0 ("message_type").data = some (PyVal.pyStr ("START").data))
    (hrc0 : pyGet kvs0 ("result_columns").data = some (PyVal.pyList objs))
    (hcols : objs.mapM extractColName = Except.ok cols)
    (hd : List.Forall₂ (fun t g => ∃ kvs, jsonLoads t = some (PyVal.pyDict kvs) ∧
      pyGet kvs ("message_type").data = some (PyVal.pyStr ("DATA").data) ∧
      pyGet kvs ("data").data = some (PyVal.pyList (g.map PyVal.pyList))) ts gs)
    (hcne : cols ≠ [])
    (harity : ∀ g ∈ gs, ∀ r ∈ g, r.length = cols.length)
    (hrne : gs.flatten ≠ []) :
    parse_jsonlines_output out = Except.ok ⟨cols, gs.flatten⟩ := by
  unfold parse_jsonlines_output interpretMessages
  rw [hc, List.foldlM_cons]
  have hstep : stepLine ([], []) t0 = Except.ok (cols, []) := by
    unfold stepLine
    rw [h0]
    exact stepMsg_start kvs0 objs cols ([], []) hmt0 hrc0 hcols
  rw [hstep]
  show (match ts.foldlM stepLine (cols, []) with
        | Except.ok (c, r) => buildDataFrame c r
        | Except.error e => Except.error e) = _
  rw [foldl_stepLine_data ts gs hd cols []]
  show buildDataFrame cols (gs.flatten.map PyVal.pyList) = _
  have hrowsne : gs.flatten.map PyVal.pyList ≠ [] := fun hm =>
    hrne (List.map_eq_nil_iff.mp hm)
  have hcells : (gs.flatten.map PyVal.pyList).map cellsOf = gs.flatten := by
    rw [List.map_map]
    have hcomp : cellsOf ∘ PyVal.pyList = id := by
      funext r
      rfl
    rw [hcomp, List.map_id]
  have hlens : ∀ x ∈ gs.flatten.map List.length, x = cols.length := by
    intro x hx
    simp only [List.mem_map] at hx
    obtain ⟨r, hr, rfl⟩ := hx
    obtain ⟨g, hg, hrg⟩ := List.mem_flatten.mp hr
    exact harity g hg r hrg
  have hw : frameWidth (gs.flatten.map PyVal.pyList) = cols.length := by
    unfold frameWidth
    rw [hcells]
    exact foldl_max_const _ _ (fun hm => hrne (List.map_eq_nil_iff.mp hm)) hlens
  have hempty : ¬((cols.isEmpty || (gs.flatten.map PyVal.pyList).isEmpty) = true) := by
    intro hbad
    simp only [Bool.or_eq_true] at hbad
    rcases hbad with h | h
    · exact hcne (List.isEmpty_iff.mp h)
    · exact hrowsne (List.isEmpty_iff.mp h)
  have hall : ((gs.flatten.map PyVal.pyList).all isListVal) = true := by
    rw [List.all_eq_true]
    intro r hr
    simp only [List.mem_map] at hr
    obtain ⟨m, hm, rfl⟩ := hr
    rfl
  have hpad : ∀ r ∈ gs.flatten, padTo cols.length r = r := by
    intro r hr
    apply padTo_eq_self
    obtain ⟨g, hg, hrg⟩ := List.mem_flatten.mp hr
    exact harity g hg r hrg
  unfold buildDataFrame
  rw [if_neg hempty, if_pos hall, if_pos hw.symm, hcells, hw,
    List.map_congr_left hpad, List.map_id']

/-- Witness for `decode_wellformed_stream`: a START message declaring
one column followed by one DATA message carrying two rows. -/
theorem decode_wellformed_stream_witness :
    parse_jsonlines_output ("\x7b\"message_type\":\"START\",\"result_columns\":[\x7b\"name\":\"a\"\x7d]\x7d\n\x7b\"message_type\":\"DATA\",\"data\":[[1],[2]]\x7d").data =
      Except.ok ⟨[PyVal.pyStr ['a']], [[PyVal.pyInt 1], [PyVal.pyInt 2]]⟩ := by
  have h := decode_wellformed_stream
    ("\x7b\"message_type\":\"START\",\"result_columns\":[\x7b\"name\":\"a\"\x7d]\x7d\n\x7b\"message_type\":\"DATA\",\"data\":[[1],[2]]\x7d").data
    ("\x7b\"message_type\":\"START\",\"result_columns\":[\x7b\"name\":\"a\"\x7d]\x7d").data
    [("\x7b\"message_type\":\"DATA\",\"data\":[[1],[2]]\x7d").data]
    [(("message_type").data, PyVal.pyStr ("START").data),
     (("result_columns").data, PyVal.pyList [PyVal.pyDict [(("name").data, PyVal.pyStr ['a'])]])]
    [PyVal.pyDict [(("name").data, PyVal.pyStr ['a'])]]
    [PyVal.pyStr ['a']]
    [[[PyVal.pyInt 1], [PyVal.pyInt 2]]]
    rfl rfl rfl rfl rfl
    (List.Forall₂.cons
      ⟨[(("message_type").data, PyVal.pyStr ("DATA").data),
        (("data").data, PyVal.pyList [PyVal.pyList [PyVal.pyInt 1], PyVal.pyList [PyVal.pyInt 2]])],
       rfl, rfl, rfl⟩
      List.Forall₂.nil)
    (by simp) (by decide) (by simp)
  simpa using h

/-! ### Claim C4 -/

/-- C4, counterexample.  The claim says every input in which no START
message is successfully parsed makes the decoder return an empty
ResultSet without raising.  On the input `5` no START message is parsed
(the only candidate parses to the integer 5), yet `msg.get` raises
`AttributeError`, which escapes `_parse_jsonlines_output`; the input
`NaN` (a constant `json.loads` accepts by default) raises the same
way. -/
theorem decode_non_object_raises :
    parse_jsonlines_output ("5").data = Except.error PyErr.attributeError ∧
    jsonCandidates ("5").data = [("5").data] ∧
    parse_jsonlines_output ("NaN").data = Except.error PyErr.attributeError := by
  exact ⟨rfl, rfl, rfl⟩

/-- C4, amended: if the message loop completes without raising (in
particular every parsed candidate is a JSON object and its
`result_columns`/`data` fields are iterable as required) and either no
column list or no data row was collected, the decoder returns an empty
ResultSet. -/
theorem decode_no_schema_or_rows_empty (out : List Char) (cols rows : List PyVal)
    (h : interpretMessages (jsonCandidates out) = Except.ok (cols, rows))
    (hcr : cols = [] ∨ rows = []) :
    parse_jsonlines_output out = Except.ok emptyRS := by
  unfold parse_jsonlines_output
  rw [h]
  unfold buildDataFrame
  rcases hcr with h1 | h1 <;> simp [h1]

/-- Witness for `decode_no_schema_or_rows_empty`: a stream with one DATA
message and no START message decodes to the empty ResultSet. -/
theorem decode_no_schema_or_rows_empty_witness :
    parse_jsonlines_output ("\x7b\"message_type\":\"DATA\",\"data\":[[1]]\x7d").data =
      Except.ok emptyRS :=
  decode_no_schema_or_rows_empty _ [] [PyVal.pyList [PyVal.pyInt 1]] rfl (Or.inl rfl)

/-! ### Claim C5 -/

/-- C5: a completed run with non-zero exit code yields `success = false`
and the empty ResultSet regardless of stdout, and still reports the
elapsed time measured at line 97. -/
theorem runner_nonzero_exit (run : List (List Char) → ℚ → RunOutcome)
    (query : List Char) (timeout elapsed elapsedExc : ℚ)
    (readCsv : List Char → Option ResultSet) (rc : Int) (out err : List Char)
    (hrun : run (primaryCmd query) timeout = RunOutcome.completed rc out err)
    (hrc : rc ≠ 0) :
    execute_query run query timeout elapsed elapsedExc readCsv =
      ⟨emptyRS, elapsed, false, [(primaryCmd query, timeout)]⟩ := by
  unfold execute_query
  rw [hrun]
  simp [hrc]

/-- Witness for `runner_nonzero_exit` at exit code 1 with non-empty
stdout. -/
theorem runner_nonzero_exit_witness :
    execute_query (fun _ _ => RunOutcome.completed 1 ("garbage").data []) ("SELECT 1").data
        60 (1/2) (3/4) (fun _ => none) =
      ⟨emptyRS, 1/2, false, [(primaryCmd ("SELECT 1").data, 60)]⟩ :=
  runner_nonzero_exit _ _ _ _ _ _ 1 ("garbage").data [] rfl (by decide)

/-! ### Claim C6 -/

/-- C6: when the process run raises `subprocess.TimeoutExpired`,
`execute_query` returns `success = false`, the empty ResultSet, and the
timeout value as the elapsed time. -/
theorem runner_timeout (run : List (List Char) → ℚ → RunOutcome)
    (query : List Char) (timeout elapsed elapsedExc : ℚ)
    (readCsv : List Char → Option ResultSet)
    (hrun : run (primaryCmd query) timeout = RunOutcome.timedOut) :
    execute_query run query timeout elapsed elapsedExc readCsv =
      ⟨emptyRS, timeout, false, [(primaryCmd query, timeout)]⟩ := by
  unfold execute_query
  rw [hrun]

/-- Witness for `runner_timeout`. -/
theorem runner_timeout_witness :
    execute_query (fun _ _ => RunOutcome.timedOut) ("SELECT 1").data 30 (1/2) (3/4)
        (fun _ => none) =
      ⟨emptyRS, 30, false, [(primaryCmd ("SELECT 1").data, 30)]⟩ :=
  runner_timeout _ _ _ _ _ _ rfl

/-! ### Claim C7 -/

/-- C7, counterexample.  The claim says that whenever the primary
JSONLines format yields an empty result the query is re-issued with the
CSV format.  A run with exit code 0 and blank stdout yields an empty
result, yet only the primary command is ever issued. -/
theorem runner_blank_stdout_no_fallback :
    (execute_query (fun _ _ => RunOutcome.completed 0 [] []) ("SELECT 1").data 60 1 2
        (fun _ => none)) =
      ⟨emptyRS, 1, true, [(primaryCmd ("SELECT 1").data, 60)]⟩ := by
  exact rfl

/-- C7, amended: only when the exit code is 0, stdout is non-blank, and
the JSONLines decode returns (without raising) an empty table does
`execute_query` re-issue the same query once with the CSV format and the
same timeout, and it then returns the parsed CSV output; exactly the two
listed invocations are performed. -/
theorem runner_csv_fallback (run : List (List Char) → ℚ → RunOutcome)
    (query : List Char) (timeout elapsed elapsedExc : ℚ)
    (readCsv : List Char → Option ResultSet) (out err out2 err2 : List Char)
    (rc2 : Int) (df : ResultSet)
    (h1 : run (primaryCmd query) timeout = RunOutcome.completed 0 out err)
    (h2 : (pyStripFull out).isEmpty = false)
    (h3 : parse_jsonlines_output out = Except.ok df)
    (h4 : df.isEmpty = true)
    (h5 : run (csvCmd query) timeout = RunOutcome.completed rc2 out2 err2) :
    execute_query run query timeout elapsed elapsedExc readCsv =
      ⟨if rc2 = 0 && !(pyStripFull out2).isEmpty then (readCsv out2).getD emptyRS else df,
       elapsed, true, [(primaryCmd query, timeout), (csvCmd query, timeout)]⟩ := by
  unfold execute_query
  rw [h1]
  simp only [h2, h3, h5, h4]
  simp

/-- Witness for `runner_csv_fallback`: a START-only primary payload
decodes to the empty table, so the CSV fallback output is returned. -/
theorem runner_csv_fallback_witness :
    execute_query
        (fun c _ =>
          if c = primaryCmd ("SELECT 1").data then
            RunOutcome.completed 0 ("\x7b\"message_type\":\"START\",\"result_columns\":[\x7b\"name\":\"x\"\x7d]\x7d").data []
          else RunOutcome.completed 0 ("x\n1").data [])
        ("SELECT 1").data 60 1 2
        (fun _ => some ⟨[PyVal.pyStr ['x']], [[PyVal.pyInt 1]]⟩) =
      ⟨⟨[PyVal.pyStr ['x']], [[PyVal.pyInt 1]]⟩, 1, true,
       [(primaryCmd ("SELECT 1").data, 60), (csvCmd ("SELECT 1").data, 60)]⟩ := by
  have h := runner_csv_fallback
    (fun c _ =>
      if c = primaryCmd ("SELECT 1").data then
        RunOutcome.completed 0 ("\x7b\"message_type\":\"START\",\"result_columns\":[\x7b\"name\":\"x\"\x7d]\x7d").data []
      else RunOutcome.completed 0 ("x\n1").data [])
    ("SELECT 1").data 60 1 2
    (fun _ => some ⟨[PyVal.pyStr ['x']], [[PyVal.pyInt 1]]⟩)
    ("\x7b\"message_type\":\"START\",\"result_columns\":[\x7b\"name\":\"x\"\x7d]\x7d").data []
    ("x\n1").data [] 0 emptyRS (by rfl) (by rfl) (by rfl) (by rfl) (by rfl)
  simpa using h

/-! ### Claim C2 -/

/-- C2, counterexample.  The claim says the success flag reflects only
the process exit signal.  A payload whose DATA row has two cells while
the schema declares one column makes `df.columns = columns` raise
`ValueError`; the generic `except Exception` handler then returns
`success = false` even though the exit code was 0. -/
theorem decode_width_mismatch_fails_run :
    parse_jsonlines_output ("\x7b\"message_type\":\"START\",\"result_columns\":[\x7b\"name\":\"a\"\x7d]\x7d\n\x7b\"message_type\":\"DATA\",\"data\":[[1,2]]\x7d").data =
      Except.error PyErr.valueError ∧
    (execute_query
        (fun _ _ => RunOutcome.completed 0
          ("\x7b\"message_type\":\"START\",\"result_columns\":[\x7b\"name\":\"a\"\x7d]\x7d\n\x7b\"message_type\":\"DATA\",\"data\":[[1,2]]\x7d").data [])
        ("SELECT 1").data 60 1 2 (fun _ => none)).success = false := by
  exact ⟨rfl, rfl⟩

/-- C2, amended: every row of a successfully decoded ResultSet has
exactly as many cells as declared columns; and for an exit-code-0 run
with non-blank stdout whose decode returns without raising (any
malformed candidates having been skipped), the success flag stays true —
only a decode that raises (a column-count mismatch `ValueError`, or an
`AttributeError`/`TypeError`/`KeyError` from a non-object candidate such
as a bare `NaN` or an ill-shaped message) is reported as failure, as the
counterexample shows. -/
theorem decode_rows_width_and_success_flag :
    (∀ (out : List Char) (rs : ResultSet), parse_jsonlines_output out = Except.ok rs →
       ∀ r ∈ rs.rows, r.length = rs.columns.length) ∧
    (∀ (run : List (List Char) → ℚ → RunOutcome) (query : List Char)
       (timeout elapsed elapsedExc : ℚ) (readCsv : List Char → Option ResultSet)
       (out err out2 err2 : List Char) (rc2 : Int) (rs : ResultSet),
       run (primaryCmd query) timeout = RunOutcome.completed 0 out err →
       run (csvCmd query) timeout = RunOutcome.completed rc2 out2 err2 →
       (pyStripFull out).isEmpty = false →
       parse_jsonlines_output out = Except.ok rs →
       (execute_query run query timeout elapsed elapsedExc readCsv).success = true) := by
  constructor
  · intro out rs h r hr
    unfold parse_jsonlines_output at h
    cases hi : interpretMessages (jsonCandidates out) with
    | error e =>
      rw [hi] at h
      cases h
    | ok st =>
      rw [hi] at h
      obtain ⟨cols, rows⟩ := st
      exact buildDataFrame_width cols rows rs h r hr
  · intro run query timeout elapsed elapsedExc readCsv out err out2 err2 rc2 rs h1 h5 h2 h3
    unfold execute_query
    rw [h1]
    simp only [h2, h3, h5]
    by_cases hemp : rs.isEmpty = true <;> simp [hemp]

/-- Witness for `decode_rows_width_and_success_flag`: a two-column
stream decodes with matching row widths, and the same run keeps
`success = true`. -/
theorem decode_rows_width_and_success_flag_witness :
    (∀ r ∈ (ResultSet.mk [PyVal.pyStr ['a'], PyVal.pyStr ['b']]
        [[PyVal.pyInt 1, PyVal.pyInt 2]]).rows,
      r.length = (ResultSet.mk [PyVal.pyStr ['a'], PyVal.pyStr ['b']]
        [[PyVal.pyInt 1, PyVal.pyInt 2]]).columns.length) ∧
    (execute_query
        (fun _ _ => RunOutcome.completed 0
          ("\x7b\"message_type\":\"START\",\"result_columns\":[\x7b\"name\":\"a\"\x7d,\x7b\"name\":\"b\"\x7d]\x7d\n\x7b\"message_type\":\"DATA\",\"data\":[[1,2]]\x7d").data [])
        ("SELECT 1").data 60 1 2 (fun _ => none)).success = true := by
  constructor
  · exact decode_rows_width_and_success_flag.1
      ("\x7b\"message_type\":\"START\",\"result_columns\":[\x7b\"name\":\"a\"\x7d,\x7b\"name\":\"b\"\x7d]\x7d\n\x7b\"message_type\":\"DATA\",\"data\":[[1,2]]\x7d").data
      _ rfl
  · exact decode_rows_width_and_success_flag.2
      (fun _ _ => RunOutcome.completed 0
        ("\x7b\"message_type\":\"START\",\"result_columns\":[\x7b\"name\":\"a\"\x7d,\x7b\"name\":\"b\"\x7d]\x7d\n\x7b\"message_type\":\"DATA\",\"data\":[[1,2]]\x7d").data [])
      ("SELECT 1").data 60 1 2 (fun _ => none)
      ("\x7b\"message_type\":\"START\",\"result_columns\":[\x7b\"name\":\"a\"\x7d,\x7b\"name\":\"b\"\x7d]\x7d\n\x7b\"message_type\":\"DATA\",\"data\":[[1,2]]\x7d").data
      [] ("\x7b\"message_type\":\"START\",\"result_columns\":[\x7b\"name\":\"a\"\x7d,\x7b\"name\":\"b\"\x7d]\x7d\n\x7b\"message_type\":\"DATA\",\"data\":[[1,2]]\x7d").data
      [] 0
      ⟨[PyVal.pyStr ['a'], PyVal.pyStr ['b']], [[PyVal.pyInt 1, PyVal.pyInt 2]]⟩
      rfl rfl rfl rfl

/-! ### Claim C8 -/

set_option maxRecDepth 200000 in
/-- C8: with street filter `Broadway`, amount range `(10, 50)` and the
car filter unset, the Q5 query built by `execute_benchmark_query`
contains the fragment `street_name = 'Broadway'` and the fragment
`calculated_fine_amount BETWEEN 10 AND 50`, and no `vehicle_make`
equality fragment. -/
theorem benchmark_broadway_fragments :
    strHasSub (("street_name = 'Broadway'").data)
        (benchmark_q5 ("Broadway").data (PyNum.pyI 10, PyNum.pyI 50) []) = true ∧
    strHasSub (("calculated_fine_amount BETWEEN 10 AND 50").data)
        (benchmark_q5 ("Broadway").data (PyNum.pyI 10, PyNum.pyI 50) []) = true ∧
    strHasSub (("vehicle_make = '").data)
        (benchmark_q5 ("Broadway").data (PyNum.pyI 10, PyNum.pyI 50) []) = false := by
  decide

/-! ### Claim C9 -/

/-- C9, counterexample.  The claim says the filter conjunction is
appended with `AND` whenever the query already contains a WHERE clause.
A query whose `WHERE` follows a newline is not matched by the
space-delimited `' WHERE '` test, so a second `WHERE` clause is appended
instead of an `AND`. -/
theorem custom_query_newline_where_cex :
    custom_query_sql ("SELECT * FROM violations\nWHERE id = 1").data true
        ("Broadway").data (PyNum.pyF 0, PyNum.pyF 200) [] =
      ("SELECT * FROM violations\nWHERE id = 1 WHERE street_name = 'Broadway'").data ∧
    strHasSub ((" AND (").data)
        (custom_query_sql ("SELECT * FROM violations\nWHERE id = 1").data true
          ("Broadway").data (PyNum.pyF 0, PyNum.pyF 200) []) = false := by
  exact ⟨rfl, rfl⟩

/-- The `conditions` list is non-empty exactly when the gate at line 904
passes. -/
theorem custom_conditions_ne_empty (street car : List Char) (ar : PyNum × PyNum)
    (h : (!street.isEmpty || !car.isEmpty || !amountIsDefault ar) = true) :
    (custom_conditions street car ar).isEmpty = false := by
  unfold custom_conditions
  by_cases hs : street.isEmpty <;> by_cases hc : car.isEmpty <;>
    by_cases ha : amountIsDefault ar <;> simp_all

/-- C9, amended: for a filtered custom query on `violations` with at
least one filter set (amount counting as set only when it differs from
the default `(0.0, 200.0)`), each set filter contributes its fragment to
`conditions` and each unset one contributes nothing, and the `AND`-join
of the fragments is appended as `... AND (...)` when the stripped query
contains the token `' WHERE '` (`' where '` literally, or any case via
`sql.upper()`, both space-delimited — a newline-delimited WHERE is
missed), and as a new `WHERE` clause otherwise. -/
theorem custom_query_filter_append (custom_sql street car : List Char)
    (ar : PyNum × PyNum)
    (hv : strHasSub ("violations").data (lowerAll (pyStrip custom_sql)) = true)
    (hset : (!street.isEmpty || !car.isEmpty || !amountIsDefault ar) = true) :
    custom_query_sql custom_sql true street ar car =
      (if hasWhereTok (pyStrip custom_sql) then
        rstripSemis (pyStrip custom_sql) ++ (" AND (").data
          ++ joinAnd (custom_conditions street car ar) ++ (")").data
      else
        rstripSemis (pyStrip custom_sql) ++ (" WHERE ").data
          ++ joinAnd (custom_conditions street car ar)) := by
  unfold custom_query_sql
  simp only [hv, hset, custom_conditions_ne_empty street car ar hset]
  simp

/-- Witness for `custom_query_filter_append`: street and car filters set
on a query with a space-delimited WHERE. -/
theorem custom_query_filter_append_witness :
    custom_query_sql ("SELECT * FROM violations WHERE id = 1;").data true
        ("Broadway").data (PyNum.pyF 0, PyNum.pyF 200) ("HONDA").data =
      ("SELECT * FROM violations WHERE id = 1 AND (street_name = 'Broadway' AND vehicle_make = 'HONDA')").data := by
  have h := custom_query_filter_append ("SELECT * FROM violations WHERE id = 1;").data
    ("Broadway").data ("HONDA").data (PyNum.pyF 0, PyNum.pyF 200) (by decide) (by decide)
  rw [h]
  decide

/-! ### Claim C10 -/

/-- C10, counterexample.  The claim says a custom query not mentioning
`violations` is executed verbatim.  The code first strips surrounding
whitespace (line 898), so a padded query is not executed verbatim even
though no filter is injected. -/
theorem custom_query_strip_cex :
    custom_query_sql ("  SELECT 1 FROM t  ").data true ("Broadway").data
        (PyNum.pyF 0, PyNum.pyF 200) [] = ("SELECT 1 FROM t").data ∧
    ("SELECT 1 FROM t").data ≠ ("  SELECT 1 FROM t  ").data := by
  exact ⟨rfl, by decide⟩

/-- C10, amended: with `apply_filters` enabled the executed SQL equals
the input with only surrounding whitespace stripped whenever the
lowercased stripped text does not contain `violations`, and likewise
whenever street and car are unset and the amount range equals
`(0.0, 200.0)`. -/
theorem custom_query_injection_skip (custom_sql street car : List Char)
    (ar : PyNum × PyNum) :
    (strHasSub ("violations").data (lowerAll (pyStrip custom_sql)) = false →
      custom_query_sql custom_sql true street ar car = pyStrip custom_sql) ∧
    (street.isEmpty = true → car.isEmpty = true → amountIsDefault ar = true →
      custom_query_sql custom_sql true street ar car = pyStrip custom_sql) := by
  constructor
  · intro h
    unfold custom_query_sql
    simp [h]
  · intro hs hc ha
    unfold custom_query_sql
    simp [hs, hc, ha]

/-- Witness for `custom_query_injection_skip`: both skip conditions at
concrete inputs. -/
theorem custom_query_injection_skip_witness :
    custom_query_sql (" SELECT 2 FROM t ").data true ("Broadway").data
        (PyNum.pyF 0, PyNum.pyF 200) [] = pyStrip (" SELECT 2 FROM t ").data ∧
    custom_query_sql ("SELECT * FROM violations").data true [] (PyNum.pyF 0, PyNum.pyF 200) [] =
      pyStrip ("SELECT * FROM violations").data := by
  constructor
  · exact (custom_query_injection_skip (" SELECT 2 FROM t ").data ("Broadway").data []
      (PyNum.pyF 0, PyNum.pyF 200)).1 (by decide)
  · exact (custom_query_injection_skip ("SELECT * FROM violations").data [] []
      (PyNum.pyF 0, PyNum.pyF 200)).2 rfl rfl (by decide)

/-! ### Claim C3 -/

/-- C3, counterexample.  The claim asserts the split and unsplit inputs
decode identically for every split into continuation lines not starting
with `{`.  Splitting the DATA message right after a `}` that sits inside
a JSON string value completes the candidate prematurely: the split input
decodes to the empty ResultSet while the unsplit input yields one row. -/
theorem decode_split_premature_brace :
    parse_jsonlines_output ("\x7b\"message_type\":\"START\",\"result_columns\":[\x7b\"name\":\"a\"\x7d]\x7d\n\x7b\"message_type\":\"DATA\",\"data\":[[\"\x7d\n\"]]\x7d").data =
      Except.ok emptyRS ∧
    parse_jsonlines_output ("\x7b\"message_type\":\"START\",\"result_columns\":[\x7b\"name\":\"a\"\x7d]\x7d\n\x7b\"message_type\":\"DATA\",\"data\":[[\"\x7d\"]]\x7d").data =
      Except.ok ⟨[PyVal.pyStr ['a']], [[PyVal.pyStr ['}']]]⟩ ∧
    ("\x7b\"message_type\":\"DATA\",\"data\":[[\"\x7d").data ++ ("\"]]\x7d").data =
      ("\x7b\"message_type\":\"DATA\",\"data\":[[\"\x7d\"]]\x7d").data ∧
    startsBrace ("\"]]\x7d").data = false := by
  exact ⟨rfl, rfl, rfl, rfl⟩

/-- C3, amended: the split decodes identically to the unsplit form
provided additionally that no continuation line is blank, none starts
with a skipped metadata prefix, the printed lines carry no surrounding
whitespace, and no proper prefix of the reassembled text already ends
with `}` (a `}` inside a string value misfires, as the counterexample
shows — the spec documents this as a known limitation of the
heuristic). -/
theorem decode_split_reassembly (schemaLine p0 : List Char) (rest : List (List Char))
    (hsplain : ∀ c ∈ schemaLine, 32 ≤ c.toNat ∧ c.toNat ≤ 126)
    (hp0plain : ∀ c ∈ p0, 32 ≤ c.toNat ∧ c.toNat ≤ 126)
    (hrplain : ∀ p ∈ rest, ∀ c ∈ p, 32 ≤ c.toNat ∧ c.toNat ≤ 126)
    (hsb : startsBrace schemaLine = true)
    (hse : endsBrace schemaLine = true)
    (hp0b : startsBrace p0 = true)
    (hp0strip : pyStrip p0 = p0)
    (hrest : ∀ p ∈ rest, p ≠ [] ∧ pyStrip p = p ∧ startsBrace p = false ∧
      strHasPre ("Time:").data p = false ∧ strHasPre ("Request Id:").data p = false)
    (hpre : ∀ k, k < rest.length → endsBrace (p0 ++ (rest.take k).flatten) = false)
    (hfull : endsBrace (p0 ++ rest.flatten) = true) :
    parse_jsonlines_output (schemaLine ++ '\n' :: joinNl (p0 :: rest)) =
      parse_jsonlines_output (schemaLine ++ '\n' :: (p0 ++ rest.flatten)) := by
  cases rest with
  | nil => simp [joinNl]
  | cons q rs =>
    have hp0ne : p0 ≠ [] := ne_nil_of_startsBrace p0 hp0b
    have hallne : ∀ p ∈ p0 :: q :: rs, p ≠ [] := by
      intro p hp
      rcases List.mem_cons.mp hp with h | h
      · exact h ▸ hp0ne
      · exact (hrest p h).1
    have hnos : '\n' ∉ schemaLine := not_nl_of_plain _ hsplain
    have hnop : ∀ p ∈ p0 :: q :: rs, '\n' ∉ p := by
      intro p hp
      rcases List.mem_cons.mp hp with h | h
      · exact h ▸ not_nl_of_plain _ hp0plain
      · exact not_nl_of_plain _ (hrplain p h)
    have hsstrip : pyStrip schemaLine = schemaLine :=
      pyStrip_eq_self_of_brace _ (head_of_startsBrace _ hsb) (endsBrace_getLast _ hse)
    have hkeptA : cleanOut (schemaLine ++ '\n' :: joinNl (p0 :: q :: rs)) =
        schemaLine ++ '\n' :: joinNl (p0 :: q :: rs) := by
      apply cleanOut_eq_self
      intro c hc
      rcases List.mem_append.mp hc with h | h
      · exact keptChar_of_plain c (hsplain c h).1 (hsplain c h).2
      · rcases List.mem_cons.mp h with h | h
        · rw [h]
          rfl
        · rcases mem_joinNl _ _ h with h2 | ⟨p, hp, hcp⟩
          · rw [h2]
            rfl
          · rcases List.mem_cons.mp hp with h3 | h3
            · rw [h3] at hcp
              exact keptChar_of_plain c (hp0plain c hcp).1 (hp0plain c hcp).2
            · exact keptChar_of_plain c (hrplain p h3 c hcp).1 (hrplain p h3 c hcp).2
    have hkeptB : cleanOut (schemaLine ++ '\n' :: (p0 ++ (q :: rs).flatten)) =
        schemaLine ++ '\n' :: (p0 ++ (q :: rs).flatten) := by
      apply cleanOut_eq_self
      intro c hc
      rcases List.mem_append.mp hc with h | h
      · exact keptChar_of_plain c (hsplain c h).1 (hsplain c h).2
      · rcases List.mem_cons.mp h with h | h
        · rw [h]
          rfl
        · rcases List.mem_append.mp h with h2 | h2
          · exact keptChar_of_plain c (hp0plain c h2).1 (hp0plain c h2).2
          · obtain ⟨p, hp, hcp⟩ := List.mem_flatten.mp h2
            exact keptChar_of_plain c (hrplain p hp c hcp).1 (hrplain p hp c hcp).2
    obtain ⟨a, t, hsl⟩ : ∃ a t, schemaLine = a :: t := by
      cases schemaLine with
      | nil => cases hsb
      | cons a t => exact ⟨a, t, rfl⟩
    have hheadS := head_of_startsBrace _ hsb
    have hheadA : (schemaLine ++ '\n' :: joinNl (p0 :: q :: rs)).head? = some '{' := by
      rw [hsl]
      rw [hsl] at hheadS
      exact hheadS
    have hlastA : (schemaLine ++ '\n' :: joinNl (p0 :: q :: rs)).getLast? = some '}' := by
      rw [getLast?_append_right _ _ (by simp),
        show ('\n' :: joinNl (p0 :: q :: rs)) = ['\n'] ++ joinNl (p0 :: q :: rs) from rfl,
        getLast?_append_right _ _ (joinNl_ne_nil p0 _ hp0ne),
        getLast?_joinNl _ hallne]
      exact endsBrace_getLast _ hfull
    have hstripA : pyStrip (schemaLine ++ '\n' :: joinNl (p0 :: q :: rs)) =
        schemaLine ++ '\n' :: joinNl (p0 :: q :: rs) :=
      pyStrip_eq_self_of_brace _ hheadA hlastA
    have hheadB : (schemaLine ++ '\n' :: (p0 ++ (q :: rs).flatten)).head? = some '{' := by
      rw [hsl]
      rw [hsl] at hheadS
      exact hheadS
    have hbigne : p0 ++ (q :: rs).flatten ≠ [] := by
      intro hbad
      exact hp0ne (List.append_eq_nil.mp hbad).1
    have hlastB : (schemaLine ++ '\n' :: (p0 ++ (q :: rs).flatten)).getLast? = some '}' := by
      rw [getLast?_append_right _ _ (by simp),
        show ('\n' :: (p0 ++ (q :: rs).flatten)) = ['\n'] ++ (p0 ++ (q :: rs).flatten) from rfl,
        getLast?_append_right _ _ hbigne]
      exact endsBrace_getLast _ hfull
    have hstripB : pyStrip (schemaLine ++ '\n' :: (p0 ++ (q :: rs).flatten)) =
        schemaLine ++ '\n' :: (p0 ++ (q :: rs).flatten) :=
      pyStrip_eq_self_of_brace _ hheadB hlastB
    have hsplitA : splitNl (schemaLine ++ '\n' :: joinNl (p0 :: q :: rs)) =
        schemaLine :: p0 :: q :: rs := by
      rw [splitNl_append_cons _ _ hnos, splitNl_joinNl _ (List.cons_ne_nil _ _) hnop]
    have hsplitB : splitNl (schemaLine ++ '\n' :: (p0 ++ (q :: rs).flatten)) =
        [schemaLine, p0 ++ (q :: rs).flatten] := by
      rw [splitNl_append_cons _ _ hnos, splitNl_no_nl _ ?hnl]
      case hnl =>
        intro hmem
        rcases List.mem_append.mp hmem with h | h
        · exact not_nl_of_plain _ hp0plain h
        · obtain ⟨p, hp, hcp⟩ := List.mem_flatten.mp h
          exact not_nl_of_plain _ (hrplain p hp) hcp
    have hstep : ∀ ls, collectJson (schemaLine :: ls) [] [] = collectJson ls [schemaLine] [] := by
      intro ls
      rw [collectJson_cons_brace _ _ _ _ hsstrip hsb, if_pos hse]
      simp
    have hp0end : endsBrace p0 = false := by
      have h0 := hpre 0 (by simp)
      simpa using h0
    have hcandA : jsonCandidates (schemaLine ++ '\n' :: joinNl (p0 :: q :: rs)) =
        [schemaLine, p0 ++ (q :: rs).flatten] := by
      unfold jsonCandidates
      rw [hkeptA, hstripA, hsplitA, hstep,
        collectJson_cons_brace _ _ _ _ hp0strip hp0b, if_neg (by simp [hp0end])]
      have hcj := collectJson_pieces (q :: rs) [schemaLine] p0 hp0ne
        (fun r hr => hrest r hr) hpre hfull
      simpa using hcj
    have hcandB : jsonCandidates (schemaLine ++ '\n' :: (p0 ++ (q :: rs).flatten)) =
        [schemaLine, p0 ++ (q :: rs).flatten] := by
      unfold jsonCandidates
      rw [hkeptB, hstripB, hsplitB, hstep]
      have hbigb : startsBrace (p0 ++ (q :: rs).flatten) = true := startsBrace_append _ _ hp0b
      have hbigstrip : pyStrip (p0 ++ (q :: rs).flatten) = p0 ++ (q :: rs).flatten :=
        pyStrip_eq_self_of_brace _ (head_of_startsBrace _ hbigb) (endsBrace_getLast _ hfull)
      rw [collectJson_cons_brace _ _ _ _ hbigstrip hbigb, if_pos hfull]
      simp [collectJson]
    unfold parse_jsonlines_output
    rw [hcandA, hcandB]

/-- Witness for `decode_split_reassembly`: the DATA message split across
three printed lines decodes exactly as the unsplit form. -/
theorem decode_split_reassembly_witness :
    parse_jsonlines_output
        (("\x7b\"message_type\":\"START\",\"result_columns\":[\x7b\"name\":\"a\"\x7d]\x7d").data ++
          '\n' :: joinNl [("\x7b\"message_type\":\"DATA\",").data, ("\"data\":").data, ("[[1]]\x7d").data]) =
      parse_jsonlines_output
        (("\x7b\"message_type\":\"START\",\"result_columns\":[\x7b\"name\":\"a\"\x7d]\x7d").data ++
          '\n' :: (("\x7b\"message_type\":\"DATA\",").data ++
            (List.flatten [("\"data\":").data, ("[[1]]\x7d").data]))) :=
  decode_split_reassembly
    ("\x7b\"message_type\":\"START\",\"result_columns\":[\x7b\"name\":\"a\"\x7d]\x7d").data
    ("\x7b\"message_type\":\"DATA\",").data
    [("\"data\":").data, ("[[1]]\x7d").data]
    (by decide) (by decide) (by decide) (by decide) (by decide) (by decide)
    (by decide) (by decide) (by decide) (by decide)

end Demo

